import Mathlib

/-!
Verification development for the EV_SCMMS_AI chatbot repository.

The Python sources `src/ai_chatbot/chatbot_api.py`, `src/ai_chatbot/forecast_engine.py`
and `src/ai_chatbot/mcp_interface.py` are embedded shallowly below:
pure functions become Lean functions, the in-memory conversation store becomes
explicit state passing, calls to external collaborators (the generative model,
the remote scheduling/center endpoints, the database) become oracle parameters,
and Python numbers become Nat/Int/Rat (Python ints are unbounded; the only
float-valued computation that feeds an integer result, `int(monthly_avg *
forecast_months * 1.2)`, is modelled exactly over Rat, which agrees with the
double computation away from representation boundaries).

Python `str.lower()` is modelled by `Char.toLower` (exact on ASCII); regex
`$` is modelled as end-of-string (Python also accepts a position before one
final newline — no claim here involves trailing newlines).
-/

namespace EV

/-! ## Character and string utilities (models of Python str operations) -/

/-- Whitespace characters of the regex class `\s` (ASCII part). -/
def isWsCh (c : Char) : Bool :=
  c = ' ' || c = '\t' || c = '\n' || c = '\x0d' || c = '\x0b' || c = '\x0c'

/-- `l` begins with `p` (used to model Python substring search). -/
def startsWithCL : List Char → List Char → Bool
  | [], _ => true
  | _ :: _, [] => false
  | p :: ps, c :: cs => p = c && startsWithCL ps cs

/-- `n` occurs as a contiguous substring of `hay`; models Python `n in hay`
(in particular the empty string occurs in everything). -/
def containsCL (n : List Char) : List Char → Bool
  | [] => n.isEmpty
  | c :: rest => startsWithCL n (c :: rest) || containsCL n rest

/-- Python `needle in hay` on strings. -/
def containsSub (needle hay : String) : Bool :=
  containsCL needle.toList hay.toList

/-- Python `str.lower()` (modelled by ASCII `Char.toLower`). -/
def lowerS (s : String) : String :=
  String.mk (s.toList.map Char.toLower)

/-- Drop leading whitespace. -/
def dropWsCL : List Char → List Char
  | [] => []
  | c :: r => if isWsCh c then dropWsCL r else c :: r

/-- Python `str.strip()`: drop whitespace at both ends. -/
def stripCL (s : List Char) : List Char :=
  (dropWsCL ((dropWsCL s.reverse).reverse))

/-- Python `str.strip()` on strings. -/
def stripS (s : String) : String :=
  String.mk (stripCL s.toList)

/-- Python `str.split()` with no argument: split on whitespace runs,
dropping empty pieces. `cur` is the (reversed) pending word. -/
def splitWsAux : List Char → List Char → List (List Char)
  | [], cur => if cur.isEmpty then [] else [cur.reverse]
  | c :: rest, cur =>
      if isWsCh c then
        if cur.isEmpty then splitWsAux rest [] else cur.reverse :: splitWsAux rest []
      else splitWsAux rest (c :: cur)

/-- Python `str.split()` returning strings. -/
def splitWsS (s : String) : List String :=
  (splitWsAux s.toList []).map String.mk

/-- Python `s.replace('-', ' ').replace('_', ' ')`. -/
def dashUnderscoreToSpace (s : String) : String :=
  String.mk (s.toList.map fun c => if c = '-' || c = '_' then ' ' else c)

/-- Python `a or b` on two optional strings, where `None` and `""` are falsy
(e.g. `center.get('centerId') or center.get('id')`). -/
def pyOrStr (a b : Option String) : Option String :=
  match a with
  | some s => if s = "" then b else some s
  | none => b

/-! ## Slot extractors (chatbot_api.py lines 41-80) -/

/-- `is_schedule_request` (chatbot_api.py line 41): any of a fixed keyword
list occurs in the lowercased message. -/
def isScheduleRequest (message : String) : Bool :=
  let m := lowerS message
  (["tự động đặt lịch", "đặt lịch làm", "đặt lịch", "auto schedule",
    "schedule", "lịch làm"] : List String).any fun kw => containsSub kw m

/-- `extract_shifts` (chatbot_api.py line 62): first-match-wins cascade. -/
def extractShifts (message : String) : List String :=
  if containsSub "cả 2 ca" message || containsSub "cả hai ca" message
      || containsSub "2 ca" message then
    ["Morning", "Evening"]
  else if containsSub "ca sáng" message || containsSub "sáng" message then
    ["Morning"]
  else if containsSub "ca chiều" message || containsSub "chiều" message then
    ["Evening"]
  else if containsSub "ca tối" message || containsSub "tối" message then
    ["Night"]
  else ["Morning"]

/-- The shift cascade exactly as worded by the specification (claim C7):
'both shifts' phrases, then morning, then afternoon/evening, then night,
then the default. Kept separate from `extractShifts` for refinement. -/
def shiftsSpecCascade (message : String) : List String :=
  if containsSub "cả 2 ca" message || containsSub "cả hai ca" message
      || containsSub "2 ca" message then ["Morning", "Evening"]
  else if containsSub "ca sáng" message || containsSub "sáng" message then ["Morning"]
  else if containsSub "ca chiều" message || containsSub "chiều" message then ["Evening"]
  else if containsSub "ca tối" message || containsSub "tối" message then ["Night"]
  else ["Morning"]

/-! ### The `extract_center_name` regex  `ở\s+(.+?)(?:\s*$|\s*,)`

Backtracking model: at the leftmost `ở`, the greedy `\s+` first takes the
maximal whitespace run and gives back one character at a time; for each such
split the lazy `(.+?)` grows from one character upward (never across a
newline, since `.` excludes `'\n'`) until the tail, after skipping
whitespace, is the end of the string or a comma. -/

/-- The tail after the capture must match `(?:\s*$|\s*,)`. -/
def captureTailOk (rest : List Char) : Bool :=
  match dropWsCL rest with
  | [] => true
  | c :: _ => c = ','

/-- Lazy `(.+?)` before `captureTailOk`: the shortest non-empty newline-free
prefix whose remainder satisfies `captureTailOk`. -/
def lazyCapture : List Char → Option (List Char)
  | [] => none
  | c :: rest =>
      if c = '\n' then none
      else if captureTailOk rest then some [c]
      else match lazyCapture rest with
        | some g => some (c :: g)
        | none => none

/-- Greedy `\s+` with give-back: try consuming `n` whitespace characters,
then `n-1`, ..., then `1`, running `lazyCapture` on what remains. -/
def wsThenCapture (s : List Char) : (n : ℕ) → Option (List Char)
  | 0 => none
  | n + 1 =>
      match lazyCapture (s.drop (n + 1)) with
      | some g => some g
      | none => wsThenCapture s n

/-- Length of the maximal whitespace run at the front. -/
def wsRunLen : List Char → ℕ
  | [] => 0
  | c :: r => if isWsCh c then wsRunLen r + 1 else 0

/-- `re.search` of the center-name pattern: scan left to right for an `ở`
followed by a full match; return the captured group. -/
def searchCenterPattern : List Char → Option (List Char)
  | [] => none
  | c :: rest =>
      if c = 'ở' then
        match wsThenCapture rest (wsRunLen rest) with
        | some g => some g
        | none => searchCenterPattern rest
      else searchCenterPattern rest

/-- `extract_center_name` (chatbot_api.py line 74): the captured phrase,
stripped, else the fixed default centre name. -/
def extractCenterName (message : String) : String :=
  match searchCenterPattern message.toList with
  | some g => String.mk (stripCL g)
  | none => "EV Service - Thủ Đức"

/-! ### The `extract_date_range` pattern
`từ ngày\s+(\d{4}-\d{2}-\d{2})\s+tới ngày\s+(\d{4}-\d{2}-\d{2})`

All pieces are fixed-length except `\s+`, which is always followed by a
non-whitespace requirement (a digit or the letter `t`), so maximal munch is
equivalent to the backtracking search and the matcher below is deterministic. -/

/-- Consume a literal. -/
def litCL : List Char → List Char → Option (List Char)
  | [], s => some s
  | _ :: _, [] => none
  | p :: ps, c :: cs => if p = c then litCL ps cs else none

/-- Consume `\s+` (at least one whitespace character, maximal munch). -/
def ws1CL (s : List Char) : Option (List Char) :=
  match s with
  | [] => none
  | c :: r => if isWsCh c then some (dropWsCL r) else none

/-- Consume exactly `n` digits, returning them. -/
def digitsN : ℕ → List Char → Option (List Char × List Char)
  | 0, s => some ([], s)
  | _ + 1, [] => none
  | n + 1, c :: r =>
      if c.isDigit then
        match digitsN n r with
        | some (ds, rest) => some (c :: ds, rest)
        | none => none
      else none

/-- A raw matched date: the three digit groups of `\d{4}-\d{2}-\d{2}`. -/
structure RawDate where
  y : List Char
  m : List Char
  d : List Char
deriving DecidableEq

/-- Consume `\d{4}-\d{2}-\d{2}`. -/
def dateTok (s : List Char) : Option (RawDate × List Char) := do
  let (ys, s) ← digitsN 4 s
  let s ← litCL ['-'] s
  let (ms, s) ← digitsN 2 s
  let s ← litCL ['-'] s
  let (ds, s) ← digitsN 2 s
  pure (⟨ys, ms, ds⟩, s)

/-- Try the whole date-range pattern at the current position. -/
def matchRangeAt (s : List Char) : Option (RawDate × RawDate) := do
  let s ← litCL "từ ngày".toList s
  let s ← ws1CL s
  let (d1, s) ← dateTok s
  let s ← ws1CL s
  let s ← litCL "tới ngày".toList s
  let s ← ws1CL s
  let (d2, _) ← dateTok s
  pure (d1, d2)

/-- `re.search` of the date-range pattern: leftmost match. -/
def searchRangePattern : List Char → Option (RawDate × RawDate)
  | [] => none
  | c :: rest =>
      match matchRangeAt (c :: rest) with
      | some r => some r
      | none => searchRangePattern rest

/-- Digit characters to a natural number. -/
def digitsToNat (l : List Char) : ℕ :=
  l.foldl (fun a c => a * 10 + (c.toNat - '0'.toNat)) 0

/-- A calendar date as parsed by `datetime.strptime(_, "%Y-%m-%d")`. -/
structure YMD where
  year : ℕ
  month : ℕ
  day : ℕ
deriving DecidableEq

def isLeapYear (y : ℕ) : Bool :=
  y % 4 = 0 && (y % 100 ≠ 0 || y % 400 = 0)

def daysInMonth (y m : ℕ) : ℕ :=
  if m = 2 then (if isLeapYear y then 29 else 28)
  else if m = 4 || m = 6 || m = 9 || m = 11 then 30
  else 31

/-- `datetime.strptime(s, "%Y-%m-%d")` on an already shape-matched date:
`None` models the `ValueError` raised for out-of-range components
(`datetime` requires `1 <= year <= 9999`). -/
def parseYMD (r : RawDate) : Option YMD :=
  let y := digitsToNat r.y
  let m := digitsToNat r.m
  let d := digitsToNat r.d
  if 1 ≤ y ∧ 1 ≤ m ∧ m ≤ 12 ∧ 1 ≤ d ∧ d ≤ daysInMonth y m then
    some ⟨y, m, d⟩
  else none

/-- `datetime.date.toordinal` for the proleptic Gregorian calendar
(0001-01-01 ↦ 1), via the standard days-from-civil computation. -/
def pyOrdinal (dt : YMD) : ℤ :=
  let y : ℤ := if dt.month ≤ 2 then (dt.year : ℤ) - 1 else (dt.year : ℤ)
  let era : ℤ := Int.fdiv (if 0 ≤ y then y else y - 399) 400
  let yoe : ℤ := y - era * 400
  let mp : ℤ := ((dt.month : ℤ) + 9) % 12
  let doy : ℤ := Int.fdiv (153 * mp + 2) 5 + (dt.day : ℤ) - 1
  let doe : ℤ := yoe * 365 + Int.fdiv yoe 4 - Int.fdiv yoe 100 + doy
  era * 146097 + doe - 719468 + 719163

/-- Result of `extract_date_range` (chatbot_api.py line 46).
`relRange` carries day ordinals (today 00:00 through today+7 00:00);
`expRange` carries the two parsed explicit dates; `parseError` models the
uncaught `ValueError` when the matched text is not a real date. -/
inductive DateRangeOutcome
  | noRange
  | relRange (startOrd endOrd : ℤ)
  | expRange (startD endD : YMD)
  | parseError
deriving DecidableEq

/-- `extract_date_range` (chatbot_api.py line 46), with today's ordinal as
an explicit parameter in place of `datetime.now()`. -/
def extractDateRange (todayOrd : ℤ) (message : String) : DateRangeOutcome :=
  if containsSub "từ giờ" message && containsSub "tuần sau" message then
    .relRange todayOrd (todayOrd + 7)
  else
    match searchRangePattern message.toList with
    | some (r1, r2) =>
        match parseYMD r1, parseYMD r2 with
        | some d1, some d2 => .expRange d1 d2
        | _, _ => .parseError
    | none => .noRange

/-! ## Centre resolution (`find_center_by_name`, chatbot_api.py lines 128-214)

The HTTP fetch of `GET /api/Center` is an external collaborator; the
function below receives the decoded centre list (the 200 case).  Each centre
dictionary has keys `centerId`, `id` and `name`; the id actually returned is
`center.get('centerId') or center.get('id')` with Python falsiness. -/

structure Center where
  centerId : Option String
  id : Option String
  name : String
deriving DecidableEq

/-- `center.get('centerId') or center.get('id')`. -/
def Center.resolvedId (c : Center) : Option String :=
  pyOrStr c.centerId c.id

/-- Step 1: exact case-insensitive name match. -/
def exactPred (searchName : String) (c : Center) : Bool :=
  stripS (lowerS c.name) = searchName

/-- The keyword list of a name: lowercase, strip, `-`/`_` to spaces, split. -/
def keywordsOf (s : String) : List String :=
  splitWsS (dashUnderscoreToSpace s)

/-- Step 2 scoring: +1 for an exact keyword hit, +0.5 when the query keyword
occurs inside some centre keyword. -/
def centerScore (searchKws : List String) (c : Center) : ℚ :=
  let ckws := keywordsOf (stripS (lowerS c.name))
  searchKws.foldl
    (fun s kw =>
      if ckws.contains kw then s + 1
      else if ckws.any (fun ck => containsSub kw ck) then s + (1 / 2 : ℚ)
      else s)
    0

/-- One step of the step-2 best-match fold. -/
def bestStep (searchKws : List String) (acc : Option Center × ℚ) (c : Center) :
    Option Center × ℚ :=
  let score := centerScore searchKws c
  if score > acc.2 then (some c, score) else acc

/-- Step 2 best-match fold: keep the first centre with a strictly greater
score than everything before it (initial best score 0). -/
def bestKeywordMatch (searchKws : List String) (centers : List Center) :
    Option Center × ℚ :=
  centers.foldl (bestStep searchKws) (none, 0)

/-- Step 4: substring fuzzy match (note: the centre name is lowercased but
not stripped in this step, exactly as in the source). -/
def fuzzyPred (searchName : String) (searchKws : List String) (c : Center) : Bool :=
  let n := lowerS c.name
  containsSub searchName n || containsSub n searchName
    || searchKws.any (fun kw => containsSub kw n)

/-- Steps 4-5: substring fuzzy match, then fall back to the first listed
centre (an empty directory reaches the function's final `return None`). -/
def fuzzyOrFirst (searchName : String) (searchKws : List String)
    (centers : List Center) : Option String :=
  match centers.find? (fuzzyPred searchName searchKws) with
  | some c => c.resolvedId
  | none =>
      match centers with
      | c :: _ => c.resolvedId
      | [] => none

/-- The normalised search name: default for an empty (falsy) query, then
lowercase and strip. -/
def searchNameOf (centerName : String) : String :=
  stripS (lowerS (if centerName = "" then "EV Service - Thủ Đức" else centerName))

/-- `find_center_by_name` given the decoded centre list: the four-stage
cascade ending in the first listed centre. -/
def findCenterByName (centers : List Center) (centerName : String) : Option String :=
  let searchName := searchNameOf centerName
  match centers.find? (exactPred searchName) with
  | some c => c.resolvedId
  | none =>
      let searchKws := keywordsOf searchName
      match bestKeywordMatch searchKws centers with
      | (some b, score) =>
          if score ≥ (searchKws.length : ℚ) * (1 / 2) then b.resolvedId
          else fuzzyOrFirst searchName searchKws centers
      | (none, _) => fuzzyOrFirst searchName searchKws centers

/-! ## Scheduling batch (`process_schedule_request`, chatbot_api.py lines 303-380)

`call_auto_assign_api` is a remote call; it is modelled by an oracle
`api : ℤ → String → AssignOutcome` from (date ordinal, shift) to the typed
result the wrapper produces. -/

/-- The typed result of `call_auto_assign_api`: a 200 response, or a failure
with the translated error detail and, for HTTP-level failures, the status. -/
inductive AssignOutcome
  | okA (data : String)
  | errA (error : String) (statusCode : Option ℕ)
deriving DecidableEq

def AssignOutcome.isOk : AssignOutcome → Bool
  | .okA _ => true
  | .errA _ _ => false

/-- `result.get("error", ...)`. -/
def AssignOutcome.errText : AssignOutcome → String
  | .okA _ => "Lỗi không xác định"
  | .errA e _ => e

/-- `result.get("status_code")`. -/
def AssignOutcome.status : AssignOutcome → Option ℕ
  | .okA _ => none
  | .errA _ sc => sc

/-- One entry of the `results` list built by the scheduling loop. -/
structure AttemptRec where
  date : ℤ
  shift : String
  result : AssignOutcome
deriving DecidableEq

/-- The body of the day loop, structured on the number of remaining days
(the loop `while current_date <= end_date` runs `(endD + 1 - current)⁺`
times): for each day, one auto-assign call per shift. -/
def scheduleDays (api : ℤ → String → AssignOutcome) (shifts : List String) :
    ℕ → ℤ → List AttemptRec
  | 0, _ => []
  | n + 1, current =>
      (shifts.map fun sh => ⟨current, sh, api current sh⟩)
        ++ scheduleDays api shifts n (current + 1)

/-- The nested loop `while current_date <= end_date: for shift in shifts`,
one auto-assign call per (date, shift). Dates are `toordinal` values and
`current_date += timedelta(days=1)` is `+ 1`. -/
def scheduleLoop (api : ℤ → String → AssignOutcome) (shifts : List String)
    (current endD : ℤ) : List AttemptRec :=
  scheduleDays api shifts (endD + 1 - current).toNat current

/-- Stand-in for `strftime('%Y-%m-%d')` in user-facing text (no claim
inspects the rendered date; `toString` is injective on ordinals). -/
def fmtDate (d : ℤ) : String := toString d

/-- The `shift_names` mapping with `.get(shift, shift)` default. -/
def shiftVN (s : String) : String :=
  if s = "Morning" then "Ca sáng"
  else if s = "Evening" then "Ca chiều"
  else if s = "Night" then "Ca tối"
  else s

/-- `error_counts[error] = error_counts.get(error, 0) + 1` over an
insertion-ordered dictionary. -/
def upsertCount : List (String × ℕ) → String → List (String × ℕ)
  | [], e => [(e, 1)]
  | (k, n) :: rest, e =>
      if k = e then (k, n + 1) :: rest else (k, n) :: upsertCount rest e

/-- One grouped error line of the user-facing message. -/
def errorLine (p : String × ℕ) : String :=
  if p.2 = 1 then "  • " ++ p.1
  else "  • " ++ p.1 ++ " (" ++ toString p.2 ++ " ca)"

/-- The natural-language summary assembled by `process_schedule_request`. -/
def buildScheduleMessage (successful failed : List AttemptRec) : String :=
  let successPart :=
    if successful.isEmpty then []
    else
      ("✅ Đã đặt lịch thành công cho " ++ toString successful.length ++ " ca:")
        :: (successful.take 5).map
            (fun s => "  - " ++ fmtDate s.date ++ " (" ++ shiftVN s.shift ++ ")")
  let failPart :=
    if failed.isEmpty then []
    else
      let errorCounts := failed.foldl (fun acc f => upsertCount acc f.result.errText) []
      ("❌ Không thể đặt lịch cho " ++ toString failed.length ++ " ca")
        :: (errorCounts.take 3).map errorLine
  String.intercalate "\n" (successPart ++ failPart)

structure ErrorDetail where
  date : ℤ
  shift : String
  error : String
  statusCode : Option ℕ
deriving DecidableEq

/-- The `details` dictionary of the schedule response. -/
structure ScheduleDetails where
  successful : ℕ
  failed : ℕ
  errorDetails : List ErrorDetail
  centerId : String
deriving DecidableEq

/-- The value returned by `process_schedule_request` (`details` is absent on
the early "cannot determine time range" return). -/
structure ScheduleResult where
  success : Bool
  message : String
  details : Option ScheduleDetails
deriving DecidableEq

/-- The body of `process_schedule_request` after a date range was found. -/
def runScheduleBatch (api : ℤ → String → AssignOutcome) (shifts : List String)
    (startOrd endOrd : ℤ) (centerId : String) : ScheduleResult :=
  let results := scheduleLoop api shifts startOrd endOrd
  let successful := results.filter (fun r => r.result.isOk)
  let failed := results.filter (fun r => !r.result.isOk)
  { success := successful.length > 0
    message := buildScheduleMessage successful failed
    details := some
      { successful := successful.length
        failed := failed.length
        errorDetails := (failed.take 5).map
          (fun f => ⟨f.date, f.shift, f.result.errText, f.result.status⟩)
        centerId := centerId } }

/-- `process_schedule_request` (chatbot_api.py line 303). `none` models the
uncaught `ValueError` of `strptime` on an ill-formed matched date. -/
def processScheduleRequest (api : ℤ → String → AssignOutcome) (todayOrd : ℤ)
    (message centerId : String) : Option ScheduleResult :=
  match extractDateRange todayOrd message with
  | .parseError => none
  | .noRange => some
      { success := false
        message := "Không thể xác định khoảng thời gian"
        details := none }
  | .relRange s e => some (runScheduleBatch api (extractShifts message) s e centerId)
  | .expRange d1 d2 => some
      (runScheduleBatch api (extractShifts message) (pyOrdinal d1) (pyOrdinal d2) centerId)

/-! ## Forecast engine (forecast_engine.py)

Database rows carry the fields the engine reads (`part.get("sparepartid") or
part.get("SparePartID")` reads one column under either key casing, so one
field suffices). Money is `ℚ`. The three generative attempts are oracle
parameters of type `Option AiPayload` (`none` = empty/blocked output or a
JSON parse failure); `AiPayload` carries the keys of the parsed JSON object
that the surrounding code goes on to read. -/

structure SparePartRow where
  sparepartid : String
  name : String
  unitprice : ℚ
  manufacture : String
deriving DecidableEq

structure InventoryRow where
  sparepartid : String
  quantity : ℤ
  minimumstocklevel : ℤ
deriving DecidableEq

structure UsageRow where
  sparepartid : String
  quantityused : ℤ
deriving DecidableEq

structure MonthlyForecast where
  month : ℕ
  predictedDemand : ℤ
  confidence : ℚ
deriving DecidableEq

/-- One element of `spare_parts_forecasts` (the ForecastItem schema). -/
structure ForecastItem where
  sparePartId : String
  partName : String
  manufacture : String
  unitPrice : ℚ
  currentStock : ℤ
  minimumStockLevel : ℤ
  totalForecastDemand : ℤ
  suggestedOrderQuantity : ℤ
  replenishmentNeeded : Bool
  estimatedCost : ℚ
  urgencyLevel : String
  monthlyForecasts : List MonthlyForecast
deriving DecidableEq

/-- Python `int()` on a rational: truncation toward zero. -/
def pyInt (q : ℚ) : ℤ := q.num / q.den

/-- The inventory-matching loop (forecast_engine.py lines 296-303):
current stock and minimum level from the first row whose spare-part id
matches, defaults (0, 10) otherwise; a stored minimum level of 0 is falsy in
`int(inv.get("minimumstocklevel") or ... or 10)` and also becomes 10. -/
def findStock (pid : String) : List InventoryRow → ℤ × ℤ
  | [] => (0, 10)
  | inv :: rest =>
      if inv.sparepartid = pid then
        (inv.quantity, if inv.minimumstocklevel = 0 then 10 else inv.minimumstocklevel)
      else findStock pid rest

/-- Total historical usage of one part (forecast_engine.py lines 306-310). -/
def historicalUsage (pid : String) (usage : List UsageRow) : ℤ :=
  (usage.filter (fun u => u.sparepartid = pid)).foldl (fun a u => a + u.quantityused) 0

/-- The per-part deterministic forecast (forecast_engine.py lines 289-350). -/
def computeForecastItem (part : SparePartRow) (inventory : List InventoryRow)
    (usage : List UsageRow) (m : ℕ) : ForecastItem :=
  let pid := part.sparepartid
  let stock := findStock pid inventory
  let currentStock := stock.1
  let minStock := stock.2
  let h := historicalUsage pid usage
  let td :=
    if h > 0 then
      (pyInt ((h : ℚ) / 24 * (m : ℚ) * (6 / 5)),
        if (h : ℚ) / 24 > 5 then "high" else "medium")
    else
      if part.unitprice > 1000000 then ((2 : ℤ) * m, "high")
      else if part.unitprice > 500000 then ((5 : ℤ) * m, "medium")
      else ((8 : ℤ) * m, "low")
  let totalDemand := td.1
  let suggested := max 0 (totalDemand + minStock - currentStock)
  { sparePartId := pid
    partName := part.name
    manufacture := part.manufacture
    unitPrice := part.unitprice
    currentStock := currentStock
    minimumStockLevel := minStock
    totalForecastDemand := totalDemand
    suggestedOrderQuantity := suggested
    replenishmentNeeded := decide (currentStock < totalDemand + minStock)
    estimatedCost := (suggested : ℚ) * part.unitprice
    urgencyLevel := td.2
    monthlyForecasts := (List.range m).map fun i =>
      ⟨i + 1, max 1 (Int.fdiv totalDemand (m : ℤ)),
        if h > 0 then (4 / 5 : ℚ) else (3 / 5 : ℚ)⟩ }

/-- The inclusion filter (forecast_engine.py lines 356-362): replenishment
needed, or stock at most 1.5x the minimum, or demand above stock. -/
def passesFilter (f : ForecastItem) : Bool :=
  f.replenishmentNeeded
    || (f.currentStock : ℚ) ≤ (f.minimumStockLevel : ℚ) * (3 / 2)
    || f.totalForecastDemand > f.currentStock

/-- Insert into a list already sorted descending by total forecast demand,
keeping earlier elements first on ties. -/
def insertDemandDesc (x : ForecastItem) : List ForecastItem → List ForecastItem
  | [] => [x]
  | g :: rest =>
      if g.totalForecastDemand > x.totalForecastDemand then
        g :: insertDemandDesc x rest
      else x :: g :: rest

/-- `sorted(..., key=lambda x: x['total_forecast_demand'], reverse=True)`:
stable descending order by total forecast demand. -/
def sortDemandDesc (l : List ForecastItem) : List ForecastItem :=
  l.foldr insertDemandDesc []

/-- The deterministic fallback's final selection (forecast_engine.py lines
352-375): filter, and if nothing passes while candidates exist, take the top
3 by forecast demand with `replenishment_needed` forced to `True`. -/
def selectedForecasts (parts : List SparePartRow) (inventory : List InventoryRow)
    (usage : List UsageRow) (m : ℕ) : List ForecastItem :=
  let allF := parts.map (computeForecastItem · inventory usage m)
  let filtered := allF.filter passesFilter
  if filtered.isEmpty && !allF.isEmpty then
    ((sortDemandDesc allF).take 3).map
      (fun f => { f with replenishmentNeeded := true })
  else filtered

/-- The keys of a parsed generative-model JSON object that the engine reads
after `json.loads`: a `success` key (if present it survives the `**` merge
and overrides the envelope's `True`), the forecast list, alternatives, and a
summary message. -/
structure AiPayload where
  successKey : Option Bool
  forecasts : List ForecastItem
  alternatives : List String
  message : String
deriving DecidableEq

/-- The claim-relevant keys of the dictionary a forecast call returns. -/
structure ForecastResult where
  dataSource : String
  success : Bool
  forecasts : List ForecastItem
  message : String
  recommendations : List String
deriving DecidableEq

/-- `{"data_source": src, "success": True, **ai_result}`. -/
def aiEnvelope (src : String) (p : AiPayload) : ForecastResult :=
  { dataSource := src
    success := p.successKey.getD true
    forecasts := p.forecasts
    message := p.message
    recommendations := [] }

/-- The immediate no-data result (forecast_engine.py lines 129-147). -/
def noDataResult (m : ℕ) : ForecastResult :=
  { dataSource := "no_data_available"
    success := true
    forecasts := []
    message := "Hiện tại không có dữ liệu phụ tùng trong hệ thống để thực hiện dự báo "
      ++ toString m
      ++ " tháng. Vui lòng kiểm tra lại dữ liệu trong database hoặc thêm phụ tùng mới."
    recommendations :=
      ["Kiểm tra kết nối database và đồng bộ dữ liệu",
       "Nhập dữ liệu phụ tùng và lịch sử sử dụng",
       "Thiết lập quy trình cập nhật tồn kho tự động"] }

/-- `generate_simple_forecast` (forecast_engine.py line 119): the immediate
no-data return, then the simplified generative attempt `aiSimple`, then the
basic generative attempt `aiBasic` (whose parsed forecasts are used
directly), then the deterministic data-driven computation; `aiRec` is the
non-critical recommendation request. -/
def generateSimpleForecast (aiSimple aiBasic : Option AiPayload)
    (aiRec : Option (List String)) (parts : List SparePartRow)
    (inventory : List InventoryRow) (usage : List UsageRow) (m : ℕ) :
    ForecastResult :=
  if parts.isEmpty && inventory.isEmpty then noDataResult m
  else
    match aiSimple with
    | some p => aiEnvelope "ai_simple_analysis" p
    | none =>
        let fa :=
          match aiBasic with
          | some p => (p.forecasts, p.alternatives)
          | none =>
              (selectedForecasts parts inventory usage m,
                ["Xem xét phụ tùng tương đương giá rẻ hơn",
                 "Kết hợp đặt hàng để giảm chi phí"])
        let forecasts := fa.1
        let alternatives := fa.2
        let totalCost := (forecasts.map (·.estimatedCost)).sum
        let recommendations :=
          match aiRec with
          | some r => r
          | none =>
              if alternatives.isEmpty then
                ["Tối ưu hóa quy trình quản lý tồn kho",
                 "Theo dõi xu hướng sử dụng thực tế"]
              else alternatives
        { dataSource := "ai_enhanced_comprehensive"
          success := true
          forecasts := forecasts
          message := "Phân tích thông minh " ++ toString forecasts.length
            ++ " phụ tùng dựa trên " ++ toString usage.length
            ++ " bản ghi lịch sử. Dự báo " ++ toString m
            ++ " tháng với tổng chi phí " ++ toString totalCost ++ " VND."
          recommendations := recommendations }

/-- `generate_forecast` (forecast_engine.py line 424) after a successful
data collection (a throwing fetch is the only `success:false` path and is
outside this model): the primary generative attempt `aiPrimary`, else the
simple-forecast cascade. -/
def generateForecast (aiPrimary aiSimple aiBasic : Option AiPayload)
    (aiRec : Option (List String)) (parts : List SparePartRow)
    (inventory : List InventoryRow) (usage : List UsageRow) (m : ℕ) :
    ForecastResult :=
  match aiPrimary with
  | some p => aiEnvelope "ai_analysis_real_data" p
  | none => generateSimpleForecast aiSimple aiBasic aiRec parts inventory usage m

/-! ## Conversation store and tool-calling workflow (mcp_interface.py)

`ConversationManager.conversations` is the only mutable state; it is passed
explicitly. The generative model, the MCP tool functions and the tool-less
fallback model are oracle parameters. -/

structure ChatMessage where
  timestamp : String
  role : String
  content : String
  functionCalls : List String
deriving DecidableEq

/-- The per-conversation message log, keyed by conversation id. -/
def ConvStore : Type := String → List ChatMessage

/-- `ConversationManager.add_message`. -/
def addMessage (store : ConvStore) (cid now role content : String)
    (fcs : List String) : ConvStore :=
  fun k => if k = cid then store k ++ [⟨now, role, content, fcs⟩] else store k

/-- `ConversationManager.get_context_summary`: the last message's first 50
characters when it is a user message, else the empty hint. -/
def getContextSummary (store : ConvStore) (cid : String) : String :=
  match (store cid).getLast? with
  | some last => if last.role = "user" then "Last: " ++ last.content.take 50 else ""
  | none => ""

/-- One part of the model response payload: a function call or text. -/
inductive GeminiPart
  | funCallPart (name : String) (args : List (String × String))
  | textPart (s : String)
deriving DecidableEq

/-- The model response as the workflow observes it. `blocked` is
`not response.candidates or finish_reason != 1`; `textVal` is the value of
the `response.text` quick accessor when reading it returns normally
(`none` = attribute absent/falsy), and `textRaises` models the SDK raising
on that access. -/
structure GeminiResponse where
  blocked : Bool
  parts : List GeminiPart
  textVal : Option String
  textRaises : Bool
deriving DecidableEq

/-- Outcome of one `call_mcp_function` invocation: a payload, a payload
carrying an `"error"` key, or a raised exception. -/
inductive McpOutcome
  | okM (result : String)
  | errKeyM (e : String)
  | exnM (e : String)
deriving DecidableEq

/-- The `for part in parts` scan: the first part with a function call. -/
def firstFunCall : List GeminiPart → Option (String × List (String × String))
  | [] => none
  | .funCallPart n a :: _ => some (n, a)
  | .textPart _ :: rest => firstFunCall rest

/-- Result of the function-call loop: an early error return (if any), the
accumulated `function_results`, and every tool invocation actually made. -/
structure ToolLoopOut where
  error : Option String
  results : List (String × String)
  executed : List String
deriving DecidableEq

/-- The `while call_count < max_calls` loop (mcp_interface.py lines
597-648). `budget` is `max_calls - call_count`; each iteration rescans the
same response parts, executes the first function call (an error result or a
raised exception returns early), and repeats. -/
def toolLoop (mcp : String → List (String × String) → McpOutcome)
    (parts : List GeminiPart) :
    (budget : ℕ) → List (String × String) → List String → ToolLoopOut
  | 0, acc, ex => ⟨none, acc, ex⟩
  | b + 1, acc, ex =>
      match firstFunCall parts with
      | none => ⟨none, acc, ex⟩
      | some (n, a) =>
          match mcp n a with
          | .okM r => toolLoop mcp parts b (acc ++ [(n, r)]) (ex ++ [n])
          | .errKeyM e =>
              ⟨some ("Lỗi function " ++ n ++ ": " ++ e), acc, ex ++ [n]⟩
          | .exnM e =>
              ⟨some ("Lỗi gọi function " ++ n ++ ": " ++ e), acc, ex ++ [n]⟩

/-- Concatenation of the text parts (the candidate-content fallback of the
response-text extraction). -/
def partsText : List GeminiPart → String
  | [] => ""
  | .funCallPart _ _ :: rest => partsText rest
  | .textPart s :: rest => s ++ partsText rest

/-- The response envelope of `process_chat_message` (claim-relevant keys). -/
structure ChatEnvelope where
  success : Bool
  response : String
  functionCalls : List String
deriving DecidableEq

/-- `process_chat_message` (mcp_interface.py line 546). Oracles: `sendExn`
models `chat.send_message` (or anything before it) raising; `resp` is the
model response; `fallbackBlocked` and `fallbackEmpty` are the two uses of
the tool-less fallback model (`none` = it raised); `mcp` executes a tool;
`formatFn` is `format_function_response` (pure data formatting whose output
no claim inspects). Returns the updated store, the response envelope, and
the list of tool executions performed. -/
def processChatMessage (store : ConvStore) (cid msg now : String)
    (sendExn : Option String) (resp : GeminiResponse)
    (fallbackBlocked : Option String)
    (mcp : String → List (String × String) → McpOutcome)
    (fallbackEmpty : Option String)
    (formatFn : String × String → String) :
    ConvStore × ChatEnvelope × List String :=
  match sendExn with
  | some e =>
      let err := "Lỗi xử lý tin nhắn: " ++ e
      let s1 := addMessage store cid now "user" msg []
      let s2 := addMessage s1 cid now "error" err []
      (s2, ⟨false, err, []⟩, [])
  | none =>
      if resp.blocked then
        match fallbackBlocked with
        | some t => (store, ⟨true, t, []⟩, [])
        | none =>
            (store, ⟨false, "Response blocked và fallback failed", []⟩, [])
      else
        let tl := toolLoop mcp resp.parts 1 [] []
        match tl.error with
        | some e => (store, ⟨false, e, []⟩, tl.executed)
        | none =>
            if resp.textRaises then
              (store, ⟨false, "Lỗi AI response", []⟩, tl.executed)
            else
              let aiText :=
                match resp.textVal with
                | some t => if t = "" then partsText resp.parts else t
                | none => partsText resp.parts
              let aiResponse :=
                if !tl.results.isEmpty && (stripS aiText).length < 5 then
                  match tl.results with
                  | fr :: _ => formatFn fr
                  | [] => aiText
                else if (stripS aiText).length < 5 then
                  match fallbackEmpty with
                  | some t => t
                  | none => "Xin lỗi, hệ thống đang gặp sự cố. Vui lòng thử lại sau."
                else aiText
              let fcs := tl.results.map (·.1)
              let s1 := addMessage store cid now "user" msg []
              let s2 := addMessage s1 cid now "assistant" aiResponse fcs
              (s2, ⟨true, aiResponse, fcs⟩, tl.executed)

/-! ## `api_chat` routing (chatbot_api.py lines 391-479) -/

/-- Python truthiness on an optional string (empty string is falsy). -/
def truthyStr : Option String → Option String
  | some s => if s = "" then none else some s
  | none => none

/-- The scheduling branch of `api_chat` (lines 429-459): resolve a centre
id from the context else the extracted name (directory lookup, then the
database fallback `dbFallback`), then run the batch. The conversation store
is neither consulted nor updated on this branch. `centers` is the decoded
`GET /api/Center` response (`none` = non-200/exception). -/
def apiChatScheduleBranch (store : ConvStore) (message : String)
    (ctxCenterId : Option String) (centers : Option (List Center))
    (dbFallback : Option String) (api : ℤ → String → AssignOutcome)
    (todayOrd : ℤ) : ConvStore × ChatEnvelope :=
  let cid? :=
    match truthyStr ctxCenterId with
    | some c => some c
    | none =>
        let name := extractCenterName message
        match truthyStr (match centers with
          | some cs => findCenterByName cs name
          | none => none) with
        | some c => some c
        | none => truthyStr dbFallback
  match cid? with
  | none =>
      (store, ⟨false, "Không tìm thấy trung tâm '" ++ extractCenterName message
        ++ "' trong hệ thống.", []⟩)
  | some c =>
      match processScheduleRequest api todayOrd message c with
      | some r => (store, ⟨r.success, r.message, ["auto_assign_schedule"]⟩)
      | none => (store, ⟨false, "Chat processing error", []⟩)

/-- `api_chat`: route a message to the scheduling workflow or the
tool-calling workflow. -/
def apiChat (store : ConvStore) (message cid now : String)
    (ctxCenterId : Option String) (centers : Option (List Center))
    (dbFallback : Option String) (api : ℤ → String → AssignOutcome)
    (todayOrd : ℤ) (sendExn : Option String) (resp : GeminiResponse)
    (fallbackBlocked : Option String)
    (mcp : String → List (String × String) → McpOutcome)
    (fallbackEmpty : Option String) (formatFn : String × String → String) :
    ConvStore × ChatEnvelope :=
  if isScheduleRequest message then
    apiChatScheduleBranch store message ctxCenterId centers dbFallback api todayOrd
  else
    let r := processChatMessage store cid message now sendExn resp
      fallbackBlocked mcp fallbackEmpty formatFn
    (r.1, r.2.1)


/-! ## Claims -/

/-- C7: for every input text, `extract_shifts` returns a non-empty list that
is a subset of Morning/Evening/Night, and it follows exactly the
first-match-wins cascade the specification describes. -/
theorem extractShifts_nonempty_subset_cascade (msg : String) :
    extractShifts msg ≠ [] ∧
    (∀ s ∈ extractShifts msg, s = "Morning" ∨ s = "Evening" ∨ s = "Night") ∧
    extractShifts msg = shiftsSpecCascade msg := by
  unfold extractShifts shiftsSpecCascade
  split_ifs <;> simp

/-- C10: `extract_center_name` is total on strings: the stripped captured
phrase when the pattern `ở\s+(.+?)(?:\s*$|\s*,)` matches, the fixed default
centre name otherwise; it never yields a null value. -/
theorem extractCenterName_total (msg : String) :
    (searchCenterPattern msg.toList = none →
      extractCenterName msg = "EV Service - Thủ Đức") ∧
    (∀ g, searchCenterPattern msg.toList = some g →
      extractCenterName msg = String.mk (stripCL g)) := by
  unfold extractCenterName
  constructor
  · intro h; rw [h]
  · intro g h; rw [h]

/-- Witness for C10 at concrete inputs: a matching message yields the
stripped phrase, a non-matching one the default centre. -/
theorem extractCenterName_total_witness :
    extractCenterName "tôi muốn đặt lịch ở Hà Nội" = "Hà Nội" ∧
    extractCenterName "không có gì" = "EV Service - Thủ Đức" := by
  constructor
  · have h := (extractCenterName_total "tôi muốn đặt lịch ở Hà Nội").2
      ("Hà Nội".toList) (by decide)
    simpa using h
  · exact (extractCenterName_total "không có gì").1 (by decide)

/-- C8: the explicit date-range pattern parses the documented example
exactly, and a message matching neither the relative phrase pair nor the
explicit pattern extracts no range. -/
theorem extractDateRange_example_and_none :
    (∀ today : ℤ,
      extractDateRange today "từ ngày 2024-01-01 tới ngày 2024-01-05"
        = .expRange ⟨2024, 1, 1⟩ ⟨2024, 1, 5⟩) ∧
    (∀ (today : ℤ) (msg : String),
      ¬(containsSub "từ giờ" msg && containsSub "tuần sau" msg) = true →
      searchRangePattern msg.toList = none →
      extractDateRange today msg = .noRange) := by
  constructor
  · intro _; rfl
  · intro t msg h1 h2
    unfold extractDateRange
    rw [if_neg h1, h2]

/-- Witness for C8 at concrete inputs. -/
theorem extractDateRange_example_and_none_witness :
    extractDateRange 0 "từ ngày 2024-01-01 tới ngày 2024-01-05"
      = .expRange ⟨2024, 1, 1⟩ ⟨2024, 1, 5⟩ ∧
    extractDateRange 0 "xin chào" = .noRange :=
  ⟨extractDateRange_example_and_none.1 0,
    extractDateRange_example_and_none.2 0 "xin chào" (by decide) (by decide)⟩

/-- Every loop iteration adds at most one executed tool. -/
theorem toolLoop_executed_le (mcp : String → List (String × String) → McpOutcome)
    (parts : List GeminiPart) :
    ∀ (b : ℕ) (acc : List (String × String)) (ex : List String),
      (toolLoop mcp parts b acc ex).executed.length ≤ ex.length + b := by
  intro b
  induction b with
  | zero => intro acc ex; simp [toolLoop]
  | succ k ih =>
      intro acc ex
      rw [toolLoop]
      cases hf : firstFunCall parts with
      | none => simp
      | some na =>
          obtain ⟨n, a⟩ := na
          cases hm : mcp n a with
          | okM r =>
              simp only [hm]
              have h := ih (acc ++ [(n, r)]) (ex ++ [n])
              simp at h ⊢
              omega
          | errKeyM e => simp [hm]
          | exnM e => simp [hm]

/-- C4: a single `process_chat_message` invocation executes at most one
tool function, whatever the model response contains. -/
theorem processChatMessage_at_most_one_tool (store : ConvStore)
    (cid msg now : String) (sendExn : Option String) (resp : GeminiResponse)
    (fb1 : Option String) (mcp : String → List (String × String) → McpOutcome)
    (fb2 : Option String) (fmt : String × String → String) :
    (processChatMessage store cid msg now sendExn resp fb1 mcp fb2 fmt).2.2.length ≤ 1 := by
  unfold processChatMessage
  cases sendExn with
  | some e => simp
  | none =>
      by_cases hb : resp.blocked
      · simp [hb]; cases fb1 <;> simp
      · simp [hb]
        have h := toolLoop_executed_le mcp resp.parts 1 [] []
        simp at h
        split <;> simp_all
        split <;> simp_all

/-- C4 exercised on a payload with two function-call parts: exactly one
tool execution happens. -/
theorem processChatMessage_at_most_one_tool_example :
    (processChatMessage (fun _ => []) "c1" "dự báo" "t0" none
      ⟨false, [.funCallPart "forecast_demand" [], .funCallPart "get_inventory" []],
        none, false⟩
      none (fun _ _ => .okM "ok") none (fun fr => fr.2)).2.2 = ["forecast_demand"] := by
  decide

/-- Each fuel step of the day loop contributes one call per shift. -/
theorem scheduleDays_length (api : ℤ → String → AssignOutcome)
    (shifts : List String) :
    ∀ (n : ℕ) (current : ℤ),
      (scheduleDays api shifts n current).length = n * shifts.length := by
  intro n
  induction n with
  | zero => intro c; simp [scheduleDays]
  | succ k ih =>
      intro c
      simp only [scheduleDays, List.length_append, List.length_map, ih, Nat.succ_mul]
      omega

/-- One unfolding of the scheduling loop in the non-empty case. -/
theorem scheduleLoop_cons (api : ℤ → String → AssignOutcome)
    (shifts : List String) (current endD : ℤ) (h : current ≤ endD) :
    scheduleLoop api shifts current endD
      = (shifts.map fun sh => ⟨current, sh, api current sh⟩)
        ++ scheduleLoop api shifts (current + 1) endD := by
  unfold scheduleLoop
  have h1 : (endD + 1 - current).toNat = (endD + 1 - (current + 1)).toNat + 1 := by
    omega
  rw [h1]
  rfl

/-- The loop is empty once the current date passes the end date. -/
theorem scheduleLoop_nil (api : ℤ → String → AssignOutcome)
    (shifts : List String) (current endD : ℤ) (h : ¬ current ≤ endD) :
    scheduleLoop api shifts current endD = [] := by
  unfold scheduleLoop
  have h1 : (endD + 1 - current).toNat = 0 := by omega
  rw [h1]
  rfl

/-- The batch issues one call per (day, shift) pair: the results list has
exactly (number of days in the inclusive range) x (number of shifts)
entries. -/
theorem scheduleLoop_length (api : ℤ → String → AssignOutcome)
    (shifts : List String) (s e : ℤ) :
    (scheduleLoop api shifts s e).length = (e + 1 - s).toNat * shifts.length := by
  unfold scheduleLoop
  rw [scheduleDays_length]
/-- Filtering a list by a predicate and its negation partitions its length. -/
theorem length_filter_partition {α : Type} (p : α → Bool) (l : List α) :
    (l.filter p).length + (l.filter (fun x => !p x)).length = l.length := by
  induction l with
  | nil => simp
  | cons x xs ih =>
      by_cases h : p x <;> simp [List.filter, h] <;> omega

/-- C6: with an extracted explicit date range, `process_schedule_request`
runs the batch; the batch issues (days in range) x (shifts) calls, reports
successful/failed counts equal to the number of succeeded/failed calls,
caps the failure-detail list at 5 entries, and succeeds iff at least one
call succeeded. -/
theorem processScheduleRequest_batch (api : ℤ → String → AssignOutcome)
    (todayOrd : ℤ) (msg centerId : String) (d1 d2 : YMD)
    (hx : extractDateRange todayOrd msg = .expRange d1 d2) :
    processScheduleRequest api todayOrd msg centerId
      = some (runScheduleBatch api (extractShifts msg)
          (pyOrdinal d1) (pyOrdinal d2) centerId) ∧
    (scheduleLoop api (extractShifts msg) (pyOrdinal d1) (pyOrdinal d2)).length
      = (pyOrdinal d2 + 1 - pyOrdinal d1).toNat * (extractShifts msg).length ∧
    (∃ det,
      (runScheduleBatch api (extractShifts msg) (pyOrdinal d1) (pyOrdinal d2)
          centerId).details = some det ∧
      det.successful = ((scheduleLoop api (extractShifts msg) (pyOrdinal d1)
          (pyOrdinal d2)).filter (fun r => r.result.isOk)).length ∧
      det.failed = ((scheduleLoop api (extractShifts msg) (pyOrdinal d1)
          (pyOrdinal d2)).filter (fun r => !r.result.isOk)).length ∧
      det.successful + det.failed
        = (scheduleLoop api (extractShifts msg) (pyOrdinal d1) (pyOrdinal d2)).length ∧
      det.errorDetails.length ≤ 5) ∧
    ((runScheduleBatch api (extractShifts msg) (pyOrdinal d1) (pyOrdinal d2)
        centerId).success = true ↔
      ∃ r ∈ scheduleLoop api (extractShifts msg) (pyOrdinal d1) (pyOrdinal d2),
        r.result.isOk = true) := by
  refine ⟨?_, scheduleLoop_length api (extractShifts msg) _ _, ?_, ?_⟩
  · unfold processScheduleRequest
    rw [hx]
  · refine ⟨_, rfl, rfl, rfl, ?_, ?_⟩
    · exact length_filter_partition _ _
    · simp [List.length_take]
  · unfold runScheduleBatch
    simp only [decide_eq_true_eq, gt_iff_lt, List.length_pos]
    constructor
    · intro h
      rcases List.exists_mem_of_ne_nil _ h with ⟨r, hr⟩
      have := List.mem_filter.mp hr
      exact ⟨r, this.1, this.2⟩
    · rintro ⟨r, hr, hok⟩
      intro hnil
      have : r ∈ (scheduleLoop api (extractShifts msg) (pyOrdinal d1)
          (pyOrdinal d2)).filter (fun r => r.result.isOk) :=
        List.mem_filter.mpr ⟨hr, hok⟩
      rw [hnil] at this
      exact absurd this (List.not_mem_nil r)
/-- Concrete scheduling request for the witness: a 3-day explicit range and
the both-shifts phrase. -/
def msgW6 : String := "tự động đặt lịch từ ngày 2024-01-01 tới ngày 2024-01-03 cả 2 ca"

/-- Concrete auto-assign oracle: the Evening shift fails on the first two
days, every other call succeeds. -/
def apiW6 : ℤ → String → AssignOutcome := fun d sh =>
  if sh = "Evening" && d ≤ 738887 then
    .errA "Không có kỹ thuật viên nào khả dụng cho ca làm việc này" (some 400)
  else .okA "ok"

/-- Witness for C6: the 3-day x 2-shift batch issues 6 calls; with 2
failures and 4 successes the aggregate reports 4/2, caps the detail list,
and succeeds. -/
theorem processScheduleRequest_batch_witness :
    (scheduleLoop apiW6 (extractShifts msgW6) (pyOrdinal ⟨2024, 1, 1⟩)
        (pyOrdinal ⟨2024, 1, 3⟩)).length = 6 ∧
    (∃ det,
      (runScheduleBatch apiW6 (extractShifts msgW6) (pyOrdinal ⟨2024, 1, 1⟩)
          (pyOrdinal ⟨2024, 1, 3⟩) "center-1").details = some det ∧
      det.successful = 4 ∧ det.failed = 2 ∧ det.errorDetails.length ≤ 5) ∧
    (runScheduleBatch apiW6 (extractShifts msgW6) (pyOrdinal ⟨2024, 1, 1⟩)
        (pyOrdinal ⟨2024, 1, 3⟩) "center-1").success = true := by
  have h := processScheduleRequest_batch apiW6 0 msgW6 "center-1"
    ⟨2024, 1, 1⟩ ⟨2024, 1, 3⟩ (by decide)
  refine ⟨?_, ?_, ?_⟩
  · rw [h.2.1]; decide
  · obtain ⟨det, hdet, hs, hf, _, hcap⟩ := h.2.2.1
    exact ⟨det, hdet, by rw [hs]; decide, by rw [hf]; decide, hcap⟩
  · exact h.2.2.2.mpr ⟨⟨738886, "Morning", .okA "ok"⟩, by decide, by decide⟩

/-- A best-match fold step can only introduce the centre it inspected. -/
theorem bestStep_fst (kws : List String) (acc : Option Center × ℚ) (c x : Center)
    (h : (bestStep kws acc c).1 = some x) : x = c ∨ acc.1 = some x := by
  unfold bestStep at h
  by_cases hs : centerScore kws c > acc.2
  · simp [hs] at h
    exact Or.inl h.symm
  · simp [hs] at h
    exact Or.inr h

/-- Any centre selected by the step-2 fold is one of the inspected centres. -/
theorem foldl_bestStep_mem (kws : List String) :
    ∀ (l : List Center) (acc : Option Center × ℚ) (x : Center),
      (l.foldl (bestStep kws) acc).1 = some x → acc.1 = some x ∨ x ∈ l := by
  intro l
  induction l with
  | nil => intro acc x h; exact Or.inl h
  | cons c cs ih =>
      intro acc x h
      rcases ih (bestStep kws acc c) x h with h' | h'
      · rcases bestStep_fst kws acc c x h' with h'' | h''
        · exact Or.inr (h'' ▸ List.mem_cons_self c cs)
        · exact Or.inl h''
      · exact Or.inr (List.mem_cons_of_mem c h')

/-- The centre chosen by step 2 belongs to the directory. -/
theorem bestKeywordMatch_mem (kws : List String) (centers : List Center)
    (b : Center) (score : ℚ)
    (h : bestKeywordMatch kws centers = (some b, score)) : b ∈ centers := by
  have h1 : (centers.foldl (bestStep kws) (none, 0)).1 = some b := by
    unfold bestKeywordMatch at h
    rw [h]
  rcases foldl_bestStep_mem kws centers (none, 0) b h1 with h' | h'
  · exact absurd h' (by simp)
  · exact h'

/-- Steps 4-5 always produce the id of a directory centre when the
directory is non-empty and every centre's id resolves. -/
theorem fuzzyOrFirst_isSome (sn : String) (kws : List String)
    (centers : List Center) (hne : centers ≠ [])
    (hid : ∀ c ∈ centers, c.resolvedId.isSome = true) :
    (fuzzyOrFirst sn kws centers).isSome = true := by
  unfold fuzzyOrFirst
  cases hf : centers.find? (fuzzyPred sn kws) with
  | some c => exact hid c (List.mem_of_find?_eq_some hf)
  | none =>
      cases centers with
      | nil => exact absurd rfl hne
      | cons c cs => exact hid c (List.mem_cons_self c cs)

/-- C9: against a non-empty directory whose centres carry ids, the cascade
always resolves to some id; and when the exact, keyword (≥ 50%), and
substring stages all fail, it returns the first listed centre's id. -/
theorem findCenterByName_resolves (centers : List Center) (q : String)
    (hne : centers ≠ [])
    (hid : ∀ c ∈ centers, c.resolvedId.isSome = true) :
    (findCenterByName centers q).isSome = true ∧
    (centers.find? (exactPred (searchNameOf q)) = none →
      (∀ b score,
        bestKeywordMatch (keywordsOf (searchNameOf q)) centers = (some b, score) →
        ¬ score ≥ ((keywordsOf (searchNameOf q)).length : ℚ) * (1 / 2)) →
      centers.find? (fuzzyPred (searchNameOf q) (keywordsOf (searchNameOf q))) = none →
      ∀ c0 cs, centers = c0 :: cs →
        findCenterByName centers q = c0.resolvedId) := by
  constructor
  · simp only [findCenterByName]
    cases he : centers.find? (exactPred (searchNameOf q)) with
    | some c => exact hid c (List.mem_of_find?_eq_some he)
    | none =>
        cases hbm : bestKeywordMatch (keywordsOf (searchNameOf q)) centers with
        | mk fst sc =>
            cases fst with
            | some b =>
                dsimp only
                by_cases hth : sc ≥ ((keywordsOf (searchNameOf q)).length : ℚ) * (1 / 2)
                · rw [if_pos hth]
                  exact hid b (bestKeywordMatch_mem _ _ _ _ hbm)
                · rw [if_neg hth]
                  exact fuzzyOrFirst_isSome _ _ _ hne hid
            | none => dsimp only; exact fuzzyOrFirst_isSome _ _ _ hne hid
  · intro he hkw hfz c0 cs hcent
    simp only [findCenterByName]
    rw [he]
    cases hbm : bestKeywordMatch (keywordsOf (searchNameOf q)) centers with
    | mk fst sc =>
        cases fst with
        | some b =>
            dsimp only
            rw [if_neg (hkw b sc hbm)]
            unfold fuzzyOrFirst
            rw [hfz, hcent]
        | none =>
            dsimp only
            unfold fuzzyOrFirst
            rw [hfz, hcent]

/-- Concrete directory for the C9 witness. -/
def centersW : List Center :=
  [⟨some "ID1", none, "alpha"⟩, ⟨some "ID2", none, "beta"⟩]

/-- Witness for C9: the query "zzz" matches nothing, yet resolution returns
the first centre's id. -/
theorem findCenterByName_resolves_witness :
    (findCenterByName centersW "zzz").isSome = true ∧
    findCenterByName centersW "zzz" = some "ID1" := by
  have h := findCenterByName_resolves centersW "zzz" (by decide) (by decide)
  refine ⟨h.1, ?_⟩
  have h2 := h.2 (by decide) ?_ (by decide)
    ⟨some "ID1", none, "alpha"⟩ [⟨some "ID2", none, "beta"⟩] rfl
  · rw [h2]; rfl
  · intro b score hbs
    have hval : bestKeywordMatch (keywordsOf (searchNameOf "zzz")) centersW
        = (none, 0) := by decide
    rw [hval] at hbs
    simp at hbs

/-- Every deterministically computed item satisfies the order-quantity and
replenishment formulas of the ForecastItem invariant. -/
theorem computeForecastItem_invariant (p : SparePartRow)
    (inv : List InventoryRow) (usage : List UsageRow) (m : ℕ) :
    (computeForecastItem p inv usage m).suggestedOrderQuantity
      = max 0 ((computeForecastItem p inv usage m).totalForecastDemand
          + (computeForecastItem p inv usage m).minimumStockLevel
          - (computeForecastItem p inv usage m).currentStock) ∧
    (computeForecastItem p inv usage m).replenishmentNeeded
      = decide ((computeForecastItem p inv usage m).currentStock
          < (computeForecastItem p inv usage m).totalForecastDemand
            + (computeForecastItem p inv usage m).minimumStockLevel) := by
  exact ⟨rfl, rfl⟩

theorem mem_insertDemandDesc (x y : ForecastItem) (l : List ForecastItem) :
    y ∈ insertDemandDesc x l ↔ y = x ∨ y ∈ l := by
  induction l with
  | nil => simp [insertDemandDesc]
  | cons g rest ih =>
      unfold insertDemandDesc
      by_cases h : g.totalForecastDemand > x.totalForecastDemand
      · rw [if_pos h]
        rw [List.mem_cons, List.mem_cons, ih]
        tauto
      · rw [if_neg h]
        rw [List.mem_cons, List.mem_cons]

theorem mem_sortDemandDesc (y : ForecastItem) (l : List ForecastItem)
    (h : y ∈ sortDemandDesc l) : y ∈ l := by
  induction l with
  | nil => simp [sortDemandDesc] at h
  | cons x rest ih =>
      unfold sortDemandDesc at h
      rw [List.foldr_cons] at h
      rcases (mem_insertDemandDesc x y _).mp h with h' | h'
      · exact h' ▸ List.mem_cons_self x rest
      · exact List.mem_cons_of_mem x (ih h')

/-- C1 (amended): every selected forecast item satisfies
`suggested_order_quantity = max(0, demand + minimum - stock)`; when the
filter admits at least one item, `replenishment_needed` equals the
invariant's predicate, but when nothing passes the filter the force-included
top-3 items carry `replenishment_needed = true` unconditionally. -/
theorem selectedForecasts_invariant (parts : List SparePartRow)
    (inventory : List InventoryRow) (usage : List UsageRow) (m : ℕ)
    (f : ForecastItem) (hf : f ∈ selectedForecasts parts inventory usage m) :
    f.suggestedOrderQuantity
      = max 0 (f.totalForecastDemand + f.minimumStockLevel - f.currentStock) ∧
    ((parts.map (computeForecastItem · inventory usage m)).filter passesFilter ≠ [] →
      f.replenishmentNeeded
        = decide (f.currentStock < f.totalForecastDemand + f.minimumStockLevel)) ∧
    ((parts.map (computeForecastItem · inventory usage m)).filter passesFilter = [] →
      f.replenishmentNeeded = true) := by
  unfold selectedForecasts at hf
  by_cases hcond :
      (((parts.map (computeForecastItem · inventory usage m)).filter
        passesFilter).isEmpty
        && !(parts.map (computeForecastItem · inventory usage m)).isEmpty) = true
  · rw [if_pos hcond] at hf
    obtain ⟨g, hg, rfl⟩ := List.mem_map.mp hf
    have hgmem : g ∈ parts.map (computeForecastItem · inventory usage m) :=
      mem_sortDemandDesc g _ (List.mem_of_mem_take hg)
    obtain ⟨p, _, rfl⟩ := List.mem_map.mp hgmem
    refine ⟨?_, ?_, fun _ => rfl⟩
    · exact (computeForecastItem_invariant p inventory usage m).1
    · intro hne
      exfalso
      simp only [Bool.and_eq_true] at hcond
      exact hne (List.isEmpty_iff.mp hcond.1)
  · rw [if_neg hcond] at hf
    have hfa : f ∈ parts.map (computeForecastItem · inventory usage m) :=
      List.mem_of_mem_filter hf
    obtain ⟨p, _, rfl⟩ := List.mem_map.mp hfa
    have h := computeForecastItem_invariant p inventory usage m
    refine ⟨h.1, fun _ => h.2, fun hempty => ?_⟩
    exfalso
    rw [hempty] at hf
    exact absurd hf (List.not_mem_nil _)

/-- A part/inventory pair on which the inclusion filter rejects everything:
ample stock (100) against demand 48 and minimum 10. -/
def partC1 : SparePartRow := ⟨"P1", "Pin", 0, "M"⟩

def invC1 : InventoryRow := ⟨"P1", 100, 10⟩

/-- Counterexample for C1 as stated: a force-included item reports
`replenishment_needed = true` although
`current_stock < total_forecast_demand + minimum_stock_level` is false. -/
theorem selectedForecasts_replenishment_cex :
    ¬ (∀ f ∈ selectedForecasts [partC1] [invC1] [] 6,
        f.replenishmentNeeded
          = decide (f.currentStock
              < f.totalForecastDemand + f.minimumStockLevel)) := by
  with_unfolding_all decide

/-- The force-included item of the counterexample scenario. -/
def forcedC1 : ForecastItem :=
  { computeForecastItem partC1 [invC1] [] 6 with replenishmentNeeded := true }

/-- Witness for the amended C1 on the force-include path. -/
theorem selectedForecasts_invariant_witness :
    forcedC1.suggestedOrderQuantity
      = max 0 (forcedC1.totalForecastDemand + forcedC1.minimumStockLevel
          - forcedC1.currentStock) ∧
    forcedC1.replenishmentNeeded = true := by
  have h := selectedForecasts_invariant [partC1] [invC1] [] 6 forcedC1
    (by with_unfolding_all decide)
  exact ⟨h.1, h.2.2 (by with_unfolding_all decide)⟩

/-- C3 (amended): with positive history, the deterministic fallback uses
`monthly_avg = total_used / 24`, truncates (`int(...)`, not `round`)
`monthly_avg * forecast_months * 1.2`, and grades urgency high iff
`monthly_avg > 5`. -/
theorem computeForecastItem_historical (p : SparePartRow)
    (inv : List InventoryRow) (usage : List UsageRow) (m : ℕ)
    (hh : 0 < historicalUsage p.sparepartid usage) :
    (computeForecastItem p inv usage m).totalForecastDemand
      = pyInt ((historicalUsage p.sparepartid usage : ℚ) / 24 * (m : ℚ) * (6 / 5)) ∧
    (computeForecastItem p inv usage m).urgencyLevel
      = (if (historicalUsage p.sparepartid usage : ℚ) / 24 > 5 then "high"
         else "medium") := by
  unfold computeForecastItem
  dsimp only
  rw [if_pos hh]
  exact ⟨rfl, rfl⟩

/-- Witness for C3: 48 units over 24 months, 6 forecast months: average 2,
demand `int(2 * 6 * 1.2) = 14`, urgency medium. -/
theorem computeForecastItem_historical_witness :
    (computeForecastItem ⟨"P2", "Lốp", 0, "M"⟩ [] [⟨"P2", 48⟩] 6).totalForecastDemand
      = 14 ∧
    (computeForecastItem ⟨"P2", "Lốp", 0, "M"⟩ [] [⟨"P2", 48⟩] 6).urgencyLevel
      = "medium" := by
  have h := computeForecastItem_historical ⟨"P2", "Lốp", 0, "M"⟩ [] [⟨"P2", 48⟩] 6
    (by decide)
  refine ⟨?_, ?_⟩
  · rw [h.1]; with_unfolding_all decide
  · rw [h.2]; with_unfolding_all decide

/-- Counterexample for C3 as stated: 35 units of history over one forecast
month give `35/24 * 1 * 1.2 = 1.75`; the code truncates to 1 while the
claimed `round` gives 2. -/
theorem computeForecastItem_round_cex :
    (computeForecastItem ⟨"P3", "Má phanh", 0, "M"⟩ [] [⟨"P3", 35⟩] 1).totalForecastDemand
      = 1 ∧
    round ((historicalUsage "P3" [⟨"P3", 35⟩] : ℚ) / 24 * (1 : ℚ) * (6 / 5)) = 2 := by
  constructor
  · with_unfolding_all decide
  · rw [round_eq]
    with_unfolding_all decide

/-- C5 (amended): when data collection yields no parts and no inventory and
the primary generative attempt falls through, the engine returns the no-data
result: success, an empty forecast list, and a non-empty message (whatever
the later-tier oracles would have answered). -/
theorem generateForecast_noData (aiSimple aiBasic : Option AiPayload)
    (aiRec : Option (List String)) (usage : List UsageRow) (m : ℕ) :
    generateForecast none aiSimple aiBasic aiRec [] [] usage m = noDataResult m ∧
    (noDataResult m).success = true ∧
    (noDataResult m).forecasts = [] ∧
    (noDataResult m).message ≠ "" := by
  refine ⟨rfl, rfl, rfl, ?_⟩
  intro hmsg
  have h1 := congrArg String.length hmsg
  simp only [noDataResult, String.length_append] at h1
  have h2 : 0 < ("Hiện tại không có dữ liệu phụ tùng trong hệ thống để thực hiện dự báo " : String).length := by
    decide
  rw [show ("" : String).length = 0 from rfl] at h1
  omega

/-- A forecast item as a generative tier could emit it. -/
def aiItemW : ForecastItem :=
  ⟨"X", "X", "M", 0, 0, 10, 5, 15, true, 0, "high", []⟩

/-- A parseable primary-model payload carrying one forecast. -/
def aiPayloadW : AiPayload := ⟨none, [aiItemW], [], "kết quả AI"⟩

/-- Counterexample for C5 as stated: even with zero parts and zero
inventory the primary generative attempt still runs first, and a parseable
response is returned as-is — the forecast list is not empty and the no-data
result is not produced. -/
theorem generateForecast_noData_cex :
    (generateForecast (some aiPayloadW) none none none [] [] [] 6).forecasts ≠ [] ∧
    (generateForecast (some aiPayloadW) none none none [] [] [] 6).dataSource
      ≠ (noDataResult 6).dataSource := by
  exact ⟨by with_unfolding_all decide, by with_unfolding_all decide⟩

/-- The user message of a conversation turn. -/
def userMsg (now msg : String) : ChatMessage := ⟨now, "user", msg, []⟩

/-- C2 (amended): the tool-calling workflow appends exactly one user and
one assistant message only on its normal completion path, and one user plus
one error message when an exception escapes to the outer handler; its
blocked-response and function-error early returns append nothing; and the
scheduling workflow never touches the conversation state store. -/
theorem conversation_append_policy (store : ConvStore) (cid msg now : String)
    (sendExn : Option String) (resp : GeminiResponse)
    (fb1 : Option String) (mcp : String → List (String × String) → McpOutcome)
    (fb2 : Option String) (fmt : String × String → String) :
    (∀ e, sendExn = some e →
      (processChatMessage store cid msg now sendExn resp fb1 mcp fb2 fmt).1 cid
        = store cid ++ [userMsg now msg,
            ⟨now, "error", "Lỗi xử lý tin nhắn: " ++ e, []⟩]) ∧
    (sendExn = none → resp.blocked = true →
      (processChatMessage store cid msg now sendExn resp fb1 mcp fb2 fmt).1
        = store) ∧
    (sendExn = none → resp.blocked = false →
      ((toolLoop mcp resp.parts 1 [] []).error.isSome = true ∨
        resp.textRaises = true) →
      (processChatMessage store cid msg now sendExn resp fb1 mcp fb2 fmt).1
        = store) ∧
    (sendExn = none → resp.blocked = false →
      (toolLoop mcp resp.parts 1 [] []).error = none → resp.textRaises = false →
      (processChatMessage store cid msg now sendExn resp fb1 mcp fb2 fmt).1 cid
        = store cid ++ [userMsg now msg,
            ⟨now, "assistant",
              (processChatMessage store cid msg now sendExn resp fb1 mcp fb2 fmt).2.1.response,
              (processChatMessage store cid msg now sendExn resp fb1 mcp fb2 fmt).2.1.functionCalls⟩]) ∧
    (∀ (store' : ConvStore) (message : String) (ctx : Option String)
        (centers : Option (List Center)) (dbF : Option String)
        (api : ℤ → String → AssignOutcome) (t : ℤ),
      (apiChatScheduleBranch store' message ctx centers dbF api t).1 = store') := by
  refine ⟨?_, ?_, ?_, ?_, ?_⟩
  · intro e he
    subst he
    simp [processChatMessage, addMessage, userMsg]
  · intro he hb
    subst he
    simp [processChatMessage, hb]
    cases fb1 <;> rfl
  · intro he hb herr
    subst he
    rcases herr with herr | herr
    · obtain ⟨er, her⟩ := Option.isSome_iff_exists.mp herr
      simp [processChatMessage, hb, her]
    · simp only [processChatMessage, hb, Bool.false_eq_true, if_false, herr]
      cases hte : (toolLoop mcp resp.parts 1 [] []).error with
      | some er => rfl
      | none => simp [herr]
  · intro he hb herr htr
    subst he
    simp [processChatMessage, hb, herr, htr, addMessage, userMsg]
  · intro store' message ctx centers dbF api t
    unfold apiChatScheduleBranch
    cases hc : (match truthyStr ctx with
      | some c => some c
      | none =>
          match truthyStr (match centers with
            | some cs => findCenterByName cs (extractCenterName message)
            | none => none) with
          | some c => some c
          | none => truthyStr dbF) with
    | none => rfl
    | some c =>
        dsimp only
        cases processScheduleRequest api t message c <;> rfl
/-- An empty conversation store. -/
def store0 : ConvStore := fun _ => []

/-- Witness for the amended C2: the outer-exception path appends user +
error; the blocked-response fallback path appends nothing. -/
theorem conversation_append_policy_witness :
    (processChatMessage store0 "c1" "xin chào" "t0" (some "boom")
        ⟨false, [], none, false⟩ none (fun _ _ => .okM "r") none
        (fun fr => fr.2)).1 "c1"
      = [userMsg "t0" "xin chào",
          ⟨"t0", "error", "Lỗi xử lý tin nhắn: boom", []⟩] ∧
    (processChatMessage store0 "c1" "hỏi chung" "t0" none
        ⟨true, [], none, false⟩ (some "trả lời") (fun _ _ => .okM "r") none
        (fun fr => fr.2)).1
      = store0 := by
  have h1 := (conversation_append_policy store0 "c1" "xin chào" "t0" (some "boom")
      ⟨false, [], none, false⟩ none (fun _ _ => .okM "r") none
      (fun fr => fr.2)).1 "boom" rfl
  have h2 := (conversation_append_policy store0 "c1" "hỏi chung" "t0" none
      ⟨true, [], none, false⟩ (some "trả lời") (fun _ _ => .okM "r") none
      (fun fr => fr.2)).2.1 rfl rfl
  exact ⟨by rw [h1]; rfl, h2⟩

/-- A complete scheduling request (explicit one-day range, morning shift). -/
def msgC2 : String := "tự động đặt lịch từ ngày 2024-01-01 tới ngày 2024-01-01 ca sáng"

/-- Counterexample for C2 as stated: a fully processed scheduling turn
(routed by `api_chat`, batch executed, response returned) leaves the
conversation state store untouched — no user message and no
assistant-or-error message is appended. -/
theorem schedule_workflow_appends_nothing_cex :
    isScheduleRequest msgC2 = true ∧
    (apiChat store0 msgC2 "conv1" "t0" (some "C1") none none apiW6 0 none
        ⟨false, [], none, false⟩ none (fun _ _ => .okM "r") none
        (fun fr => fr.2)).1 "conv1" = [] ∧
    (apiChat store0 msgC2 "conv1" "t0" (some "C1") none none apiW6 0 none
        ⟨false, [], none, false⟩ none (fun _ _ => .okM "r") none
        (fun fr => fr.2)).2.functionCalls = ["auto_assign_schedule"] := by
  refine ⟨by decide, by rfl, by decide⟩


/-- Witness for C7 at a concrete night-shift message. -/
theorem extractShifts_nonempty_subset_cascade_witness :
    extractShifts "ca tối nay nhé" ≠ [] ∧
    ("Night" = "Morning" ∨ "Night" = "Evening" ∨ "Night" = "Night") ∧
    extractShifts "ca tối nay nhé" = shiftsSpecCascade "ca tối nay nhé" := by
  have h := extractShifts_nonempty_subset_cascade "ca tối nay nhé"
  exact ⟨h.1, h.2.1 "Night" (by decide), h.2.2⟩

end EV
